import Mathlib

/-!
Verification of the opencode-limits core: the usage-cache freshness engine
(`opencode_limits/cache.py`), the two provider normalizers
(`opencode_limits/providers/codex.py`, `opencode_limits/providers/copilot.py`)
and the tmux orchestration path (`opencode_limits/cli.py`).

Modelling conventions, shared by the whole development:
* instants (Python timezone-aware `datetime` values) are rational numbers of
  seconds since the epoch;
* Python `float` values are rationals;
* Python dicts appearing in records are association lists (JSON object keys
  are unique, and insertion order is preserved);
* fallible Python code (code that may raise an uncaught exception) returns
  `Except Unit` / `Option`.
-/

namespace OpencodeLimits

/-- Seconds-since-epoch instant, the model of a timezone-aware `datetime`. -/
abbrev Instant := ℚ

/-- `models.UsageWindow`: one quota bucket. -/
structure UsageWindow where
  label : String
  used_percent : ℚ
  reset_at : Option Instant
  used : Option ℚ := none
  limit : Option ℚ := none
  deriving DecidableEq, Repr

/-- `cache.CachedWindow`: the persisted subset of a window. -/
structure CachedWindow where
  used_percent : ℚ
  reset_at : Option Instant
  deriving DecidableEq, Repr

/-- `cache.FORMAT_VERSION`. -/
def FORMAT_VERSION : Int := 1

/-- `cache.CacheRecord`: one persisted snapshot.  The `codex` dict is an
association list keyed by canonical label. -/
structure CacheRecord where
  fetched_at : Instant
  codex : List (String × CachedWindow)
  copilot : Option CachedWindow
  auth_fingerprint : String
  format_version : Int
  deriving DecidableEq, Repr

/-- The per-window condition `window.reset_at and window.reset_at <= now` used
twice inside `cache._has_reset_passed`. -/
def window_reset_passed (w : CachedWindow) (now : Instant) : Bool :=
  match w.reset_at with
  | some t => decide (t ≤ now)
  | none => false

/-- `cache._has_reset_passed`: true when any cached window (codex entry or the
copilot window) carries a `reset_at` at or before `now`. -/
def _has_reset_passed (record : CacheRecord) (now : Instant) : Bool :=
  record.codex.any (fun kv => window_reset_passed kv.2 now)
  || (match record.copilot with
      | some w => window_reset_passed w now
      | none => false)

/-- `cache.is_fresh`.  The Python signature defaults `format_version` to
`FORMAT_VERSION` and `now` to the current wall clock; both are explicit
arguments here. -/
def is_fresh (record : CacheRecord) (ttl_seconds : Int) (auth_fingerprint : String)
    (format_version : Int) (now : Instant) : Bool :=
  if record.format_version ≠ format_version then false
  else if record.auth_fingerprint ≠ auth_fingerprint then false
  else if now - record.fetched_at > (ttl_seconds : ℚ) then false
  else if _has_reset_passed record now then false
  else true

/-- `cache.is_stale_allowed`: same predicate shape as `is_fresh` with the
relaxed `max_age_seconds` bound. -/
def is_stale_allowed (record : CacheRecord) (max_age_seconds : Int)
    (auth_fingerprint : String) (format_version : Int) (now : Instant) : Bool :=
  if record.format_version ≠ format_version then false
  else if record.auth_fingerprint ≠ auth_fingerprint then false
  else if now - record.fetched_at > (max_age_seconds : ℚ) then false
  else if _has_reset_passed record now then false
  else true

/-- Structural reading of the per-window reset condition. -/
theorem window_reset_passed_iff (w : CachedWindow) (now : Instant) :
    window_reset_passed w now = true ↔ ∃ t, w.reset_at = some t ∧ t ≤ now := by
  unfold window_reset_passed
  cases hr : w.reset_at with
  | none => simp
  | some t => simp

/-- Structural reading of `_has_reset_passed`. -/
theorem has_reset_passed_iff (record : CacheRecord) (now : Instant) :
    _has_reset_passed record now = true ↔
      (∃ kv ∈ record.codex, ∃ t, kv.2.reset_at = some t ∧ t ≤ now) ∨
      (∃ w, record.copilot = some w ∧ ∃ t, w.reset_at = some t ∧ t ≤ now) := by
  unfold _has_reset_passed
  rw [Bool.or_eq_true, List.any_eq_true]
  cases hc : record.copilot with
  | none => simp [window_reset_passed_iff]
  | some w => simp [window_reset_passed_iff]

/-- C1: a record with the current format version, a matching fingerprint, no
cached window whose `reset_at` is at or before `now`, and age
`now - fetched_at` at most `ttl_seconds`, is reported fresh. -/
theorem C1_is_fresh_on_valid_record (r : CacheRecord) (ttl : Int) (fp : String)
    (now : Instant)
    (hver : r.format_version = FORMAT_VERSION)
    (hfp : r.auth_fingerprint = fp)
    (hreset : (∀ kv ∈ r.codex, ∀ t, kv.2.reset_at = some t → now < t) ∧
      (∀ w, r.copilot = some w → ∀ t, w.reset_at = some t → now < t))
    (hage : now - r.fetched_at ≤ (ttl : ℚ)) :
    is_fresh r ttl fp FORMAT_VERSION now = true := by
  have hpassed : _has_reset_passed r now = false := by
    rw [← Bool.not_eq_true, has_reset_passed_iff]
    rintro (⟨kv, hmem, t, hr, ht⟩ | ⟨w, hc, t, hr, ht⟩)
    · exact absurd ht (not_le.mpr (hreset.1 kv hmem t hr))
    · exact absurd ht (not_le.mpr (hreset.2 w hc t hr))
  simp [is_fresh, hver, hfp, hpassed, not_lt.mpr hage]

/-- Witness for C1 at a concrete record and instant. -/
theorem C1_witness :
    is_fresh
      { fetched_at := 100, codex := [("5HR", { used_percent := 12, reset_at := some 500 })],
        copilot := none, auth_fingerprint := "abc", format_version := 1 }
      180 "abc" FORMAT_VERSION 200 = true := by
  apply C1_is_fresh_on_valid_record
  · rfl
  · rfl
  · constructor
    · intro kv hmem t hr
      simp only [List.mem_singleton] at hmem
      subst hmem
      simp only [Option.some.injEq] at hr
      subst hr
      norm_num
    · intro w hw
      simp at hw
  · norm_num

/-- C2: any cached window whose `reset_at` is at or before `now` invalidates
the whole record: both freshness predicates return false for every ttl or
max-age, every fingerprint and every format version. -/
theorem C2_reset_boundary_invalidates (r : CacheRecord) (ttl maxAge : Int)
    (fp : String) (fv : Int) (now : Instant)
    (h : (∃ kv ∈ r.codex, ∃ t, kv.2.reset_at = some t ∧ t ≤ now) ∨
      (∃ w, r.copilot = some w ∧ ∃ t, w.reset_at = some t ∧ t ≤ now)) :
    is_fresh r ttl fp fv now = false ∧ is_stale_allowed r maxAge fp fv now = false := by
  have hpassed : _has_reset_passed r now = true := (has_reset_passed_iff r now).mpr h
  constructor
  · unfold is_fresh
    rw [hpassed]
    split <;> try rfl
    split <;> try rfl
    split <;> rfl
  · unfold is_stale_allowed
    rw [hpassed]
    split <;> try rfl
    split <;> try rfl
    split <;> rfl

/-- Witness for C2: a record whose only codex window reset exactly at `now` is
rejected by both predicates even with matching metadata and zero age. -/
theorem C2_witness :
    is_fresh
      { fetched_at := 100, codex := [("5HR", { used_percent := 12, reset_at := some 100 })],
        copilot := none, auth_fingerprint := "abc", format_version := 1 }
      300 "abc" 1 100 = false ∧
    is_stale_allowed
      { fetched_at := 100, codex := [("5HR", { used_percent := 12, reset_at := some 100 })],
        copilot := none, auth_fingerprint := "abc", format_version := 1 }
      86400 "abc" 1 100 = false := by
  apply C2_reset_boundary_invalidates
  left
  refine ⟨("5HR", { used_percent := 12, reset_at := some 100 }), ?_, 100, rfl, le_refl _⟩
  simp

/-!
Identity fingerprint (`cache.build_auth_fingerprint`).  The source feeds the
three credential secrets, separated by `":"` bytes, into `hashlib.sha256` and
returns the hex digest.  SHA-256 itself is external library code; it is
reproduced here in full (FIPS 180-4) over byte lists, with the round
constants and initial state computed from the cube/square roots of the first
primes exactly as the standard prescribes.
-/

namespace SHA256

/-- 2^32, the word modulus. -/
def M32 : Nat := 4294967296

/-- Right rotation of a 32-bit word. -/
def rotr (n x : Nat) : Nat := ((x >>> n) ||| (x <<< (32 - n))) % M32

/-- Fuel-driven binary search for the integer cube root. -/
def icbrtGo (n : Nat) : Nat → Nat → Nat → Nat
  | 0, lo, _ => lo
  | fuel + 1, lo, hi =>
    if lo < hi then
      let mid := (lo + hi + 1) / 2
      if mid * mid * mid ≤ n then icbrtGo n fuel mid hi
      else icbrtGo n fuel lo (mid - 1)
    else lo

/-- Integer cube root (largest `k` with `k^3 ≤ n`) for `n < 2^120`. -/
def icbrt (n : Nat) : Nat := icbrtGo n 64 0 (2 ^ 40)

/-- The first 64 primes. -/
def primes64 : List Nat :=
  [2, 3, 5, 7, 11, 13, 17, 19, 23, 29, 31, 37, 41, 43, 47, 53,
   59, 61, 67, 71, 73, 79, 83, 89, 97, 101, 103, 107, 109, 113, 127, 131,
   137, 139, 149, 151, 157, 163, 167, 173, 179, 181, 191, 193, 197, 199, 211, 223,
   227, 229, 233, 239, 241, 251, 257, 263, 269, 271, 277, 281, 283, 293, 307, 311]

/-- Round constants: first 32 bits of the fractional parts of the cube roots
of the first 64 primes. -/
def K : List Nat := primes64.map (fun p => icbrt (p * 2 ^ 96) % M32)

/-- Initial state: first 32 bits of the fractional parts of the square roots
of the first 8 primes. -/
def HInit : List Nat := (primes64.take 8).map (fun p => Nat.sqrt (p * 2 ^ 64) % M32)

/-- `k` bytes of `n`, big-endian. -/
def toBytesBE (k n : Nat) : List Nat :=
  (List.range k).map (fun i => (n >>> (8 * (k - 1 - i))) % 256)

/-- Big-endian word from bytes. -/
def wordOfBytes (bs : List Nat) : Nat := bs.foldl (fun acc b => acc * 256 + b) 0

/-- Append the 0x80 marker, zero padding to 56 mod 64, and the 64-bit
big-endian bit length. -/
def padMessage (msg : List Nat) : List Nat :=
  let zeros := (120 - ((msg.length + 1) % 64)) % 64
  msg ++ [128] ++ List.replicate zeros 0 ++ toBytesBE 8 (msg.length * 8)

/-- Split into 64-byte blocks (fuel-driven; fuel `= length` suffices). -/
def chunksGo : Nat → List Nat → List (List Nat)
  | 0, _ => []
  | _ + 1, [] => []
  | fuel + 1, l => l.take 64 :: chunksGo fuel (l.drop 64)

/-- One message-schedule extension step. -/
def scheduleStep (ws : List Nat) : List Nat :=
  let n := ws.length
  let w16 := ws.getD (n - 16) 0
  let w15 := ws.getD (n - 15) 0
  let w7 := ws.getD (n - 7) 0
  let w2 := ws.getD (n - 2) 0
  let s0 := rotr 7 w15 ^^^ rotr 18 w15 ^^^ (w15 >>> 3)
  let s1 := rotr 17 w2 ^^^ rotr 19 w2 ^^^ (w2 >>> 10)
  ws ++ [(w16 + s0 + w7 + s1) % M32]

/-- The 64-word message schedule of one block. -/
def schedule (block : List Nat) : List Nat :=
  (List.range 48).foldl (fun ws _ => scheduleStep ws)
    ((List.range 16).map (fun i => wordOfBytes ((block.drop (4 * i)).take 4)))

/-- One compression round on the 8-word state. -/
def compressRound (st : List Nat) (kw : Nat × Nat) : List Nat :=
  match st with
  | [a, b, c, d, e, f, g, h] =>
    let s1 := rotr 6 e ^^^ rotr 11 e ^^^ rotr 25 e
    let ch := (e &&& f) ^^^ ((e ^^^ (M32 - 1)) &&& g)
    let temp1 := (h + s1 + ch + kw.1 + kw.2) % M32
    let s0 := rotr 2 a ^^^ rotr 13 a ^^^ rotr 22 a
    let maj := (a &&& b) ^^^ (a &&& c) ^^^ (b &&& c)
    let temp2 := (s0 + maj) % M32
    [(temp1 + temp2) % M32, a, b, c, (d + temp1) % M32, e, f, g]
  | st => st

/-- Compress one 64-byte block into the running state. -/
def processBlock (h : List Nat) (block : List Nat) : List Nat :=
  let st := (K.zip (schedule block)).foldl compressRound h
  (h.zip st).map (fun p => (p.1 + p.2) % M32)

/-- SHA-256 digest (32 bytes) of a byte list. -/
def sha256Bytes (msg : List Nat) : List Nat :=
  let padded := padMessage msg
  ((chunksGo padded.length padded).foldl processBlock HInit).foldr
    (fun w acc => toBytesBE 4 w ++ acc) []

/-- Lower-case hex digit. -/
def hexDigit (n : Nat) : Char :=
  if n < 10 then Char.ofNat (48 + n) else Char.ofNat (87 + n)

/-- Hex digest string, as `hashlib.sha256(...).hexdigest()`. -/
def sha256hex (msg : List Nat) : String :=
  ⟨(sha256Bytes msg).foldr (fun b acc => hexDigit (b / 16) :: hexDigit (b % 16) :: acc) []⟩

end SHA256

/-- UTF-8 encoding of one code point, as Python `str.encode("utf-8")`. -/
def utf8Bytes (n : Nat) : List Nat :=
  if n < 128 then [n]
  else if n < 2048 then [192 + n / 64, 128 + n % 64]
  else if n < 65536 then [224 + n / 4096, 128 + (n / 64) % 64, 128 + n % 64]
  else [240 + n / 262144, 128 + (n / 4096) % 64, 128 + (n / 64) % 64, 128 + n % 64]

/-- UTF-8 bytes of a string. -/
def strBytes (s : String) : List Nat :=
  s.data.foldr (fun c acc => utf8Bytes c.toNat ++ acc) []

/-- `auth.AuthTokens`: the three-secret credential tuple. -/
structure AuthTokens where
  openai : String
  github_copilot : String
  chatgpt_account_id : String
  deriving DecidableEq, Repr

/-- `cache.build_auth_fingerprint`: sha256 over the three secrets separated by
`":"` bytes (58 is the code of `:`), as a hex digest. -/
def build_auth_fingerprint (tokens : AuthTokens) : String :=
  SHA256.sha256hex
    (strBytes tokens.openai ++ [58] ++ strBytes tokens.github_copilot ++ [58] ++
      strBytes tokens.chatgpt_account_id)

theorem strBytes_foldr_init (l : List Char) (init : List Nat) :
    l.foldr (fun c acc => utf8Bytes c.toNat ++ acc) init
      = l.foldr (fun c acc => utf8Bytes c.toNat ++ acc) [] ++ init := by
  induction l with
  | nil => simp
  | cons c cs ih => simp [ih]

theorem strBytes_append (a b : String) :
    strBytes (a ++ b) = strBytes a ++ strBytes b := by
  unfold strBytes
  rw [String.data_append, List.foldr_append, strBytes_foldr_init]

/-- The byte string hashed by `build_auth_fingerprint` is exactly the UTF-8
bytes of the `":"`-joined concatenation of the three secrets. -/
theorem fingerprint_input_eq (t : AuthTokens) :
    strBytes t.openai ++ [58] ++ strBytes t.github_copilot ++ [58] ++
        strBytes t.chatgpt_account_id
      = strBytes (t.openai ++ ":" ++ t.github_copilot ++ ":" ++ t.chatgpt_account_id) := by
  have hsep : strBytes ":" = [58] := by decide
  simp [strBytes_append, hsep]

/-- C5 (amended): `build_auth_fingerprint` is a deterministic function of the
credential tuple that factors through the `":"`-joined concatenation of the
three secrets: tuples with equal joined concatenations always receive equal
fingerprints, so a change to one secret is only guaranteed to change the
fingerprint when it changes the joined string. -/
theorem C5_fingerprint_factors_through_joined (t1 t2 : AuthTokens)
    (h : t1.openai ++ ":" ++ t1.github_copilot ++ ":" ++ t1.chatgpt_account_id
      = t2.openai ++ ":" ++ t2.github_copilot ++ ":" ++ t2.chatgpt_account_id) :
    build_auth_fingerprint t1 = build_auth_fingerprint t2 := by
  unfold build_auth_fingerprint
  rw [fingerprint_input_eq, fingerprint_input_eq, h]

/-- Witness for C5 at two concrete tuples with equal joined concatenations. -/
theorem C5_witness :
    build_auth_fingerprint ⟨"p:q", "r", "s"⟩ = build_auth_fingerprint ⟨"p", "q:r", "s"⟩ :=
  C5_fingerprint_factors_through_joined ⟨"p:q", "r", "s"⟩ ⟨"p", "q:r", "s"⟩ (by decide)

/-- C5 is false as stated: these two credential tuples differ in their first
and second secrets, yet the `":"`-separated concatenations coincide, so the
fingerprints are identical. -/
theorem C5_counterexample :
    AuthTokens.mk "a:b" "c" "d" ≠ AuthTokens.mk "a" "b:c" "d" ∧
      build_auth_fingerprint ⟨"a:b", "c", "d"⟩ = build_auth_fingerprint ⟨"a", "b:c", "d"⟩ := by
  constructor
  · decide
  · unfold build_auth_fingerprint
    exact congrArg _ (by decide)

/-!
Building a cache record (`cache.build_cache_record`).  The Python `codex`
dict is modelled as an association list built by insert-or-overwrite, which
matches dict assignment with insertion-order preservation.
-/

/-- Python whitespace for `str.strip()` (space, tab, newline, return,
vertical tab, form feed). -/
def pySpace (c : Char) : Bool :=
  c == ' ' || c == '\t' || c == '\n' || c == '\r' || c == Char.ofNat 11 || c == Char.ofNat 12

/-- `str.strip()`. -/
def pyStrip (s : String) : String :=
  ⟨((s.data.dropWhile pySpace).reverse.dropWhile pySpace).reverse⟩

/-- `str.lower()` (ASCII range, which covers every label in the system). -/
def lowerStr (s : String) : String := ⟨s.data.map Char.toLower⟩

/-- `cache._normalize_codex_label`: strip and lower-case, then admit only the
two canonical labels. -/
def _normalize_codex_label (label : String) : Option String :=
  let normalized := lowerStr (pyStrip label)
  if normalized = "5hr" then some "5HR"
  else if normalized = "weekly" then some "Weekly"
  else none

/-- `cache._to_cached_window`: keep only percent and reset instant. -/
def _to_cached_window (window : UsageWindow) : CachedWindow :=
  { used_percent := window.used_percent, reset_at := window.reset_at }

/-- Dict assignment `m[k] = v` on the association-list model: overwrite in
place if the key exists, else append. -/
def dictInsert (m : List (String × CachedWindow)) (k : String) (v : CachedWindow) :
    List (String × CachedWindow) :=
  if m.any (fun p => p.1 == k) then m.map (fun p => if p.1 = k then (k, v) else p)
  else m ++ [(k, v)]

/-- `cache.build_cache_record`.  The Python signature lets `codex_windows` be
absent (treated as empty) and defaults `fetched_at` to the current instant;
both are explicit here. -/
def build_cache_record (codex_windows : List UsageWindow)
    (copilot_window : Option UsageWindow) (tokens : AuthTokens)
    (fetched_at : Instant) : CacheRecord :=
  { fetched_at := fetched_at
    codex := codex_windows.foldl (fun m window =>
      match _normalize_codex_label window.label with
      | none => m
      | some label => dictInsert m label (_to_cached_window window)) []
    copilot := copilot_window.map _to_cached_window
    auth_fingerprint := build_auth_fingerprint tokens
    format_version := FORMAT_VERSION }

theorem dictInsert_key_mem (m : List (String × CachedWindow)) (k : String)
    (v : CachedWindow) : ∀ kv ∈ dictInsert m k v, kv.1 = k ∨ kv ∈ m := by
  intro kv hkv
  unfold dictInsert at hkv
  split at hkv
  · obtain ⟨p, hp, hpe⟩ := List.mem_map.mp hkv
    by_cases hc : p.1 = k
    · rw [if_pos hc] at hpe
      left
      rw [← hpe]
    · rw [if_neg hc] at hpe
      right
      rw [← hpe]
      exact hp
  · rcases List.mem_append.mp hkv with h | h
    · right
      exact h
    · left
      rw [List.mem_singleton.mp h]

theorem normalize_label_canonical (label s : String)
    (h : _normalize_codex_label label = some s) : s = "5HR" ∨ s = "Weekly" := by
  simp only [_normalize_codex_label] at h
  split at h
  · exact Or.inl (Option.some.inj h).symm
  · split at h
    · exact Or.inr (Option.some.inj h).symm
    · exact absurd h (by simp)

theorem build_codex_fold_keys (ws : List UsageWindow)
    (m : List (String × CachedWindow))
    (hm : ∀ kv ∈ m, kv.1 = "5HR" ∨ kv.1 = "Weekly") :
    ∀ kv ∈ ws.foldl (fun m window =>
        match _normalize_codex_label window.label with
        | none => m
        | some label => dictInsert m label (_to_cached_window window)) m,
      kv.1 = "5HR" ∨ kv.1 = "Weekly" := by
  induction ws generalizing m with
  | nil => simpa using hm
  | cons w ws ih =>
    intro kv hkv
    rw [List.foldl_cons] at hkv
    cases hn : _normalize_codex_label w.label with
    | none =>
      simp only [hn] at hkv
      exact ih m hm kv hkv
    | some label =>
      simp only [hn] at hkv
      refine ih _ ?_ kv hkv
      intro p hp
      rcases dictInsert_key_mem _ _ _ p hp with h | h
      · rw [h]
        exact normalize_label_canonical w.label label hn
      · exact hm p h

/-- C10: every key of the codex mapping produced by `build_cache_record` is
`"5HR"` or `"Weekly"`; windows whose label normalizes to anything else are
dropped and never reach the cache. -/
theorem C10_codex_keys_canonical (codex_windows : List UsageWindow)
    (copilot_window : Option UsageWindow) (tokens : AuthTokens)
    (fetched_at : Instant) :
    ∀ kv ∈ (build_cache_record codex_windows copilot_window tokens fetched_at).codex,
      kv.1 = "5HR" ∨ kv.1 = "Weekly" := by
  intro kv hkv
  exact build_codex_fold_keys codex_windows [] (by simp) kv hkv

/-- Witness for C10: a `" 5Hr "` label normalizes into the cache while a
`"burst"` label is dropped. -/
theorem C10_witness :
    (("5HR", CachedWindow.mk 12 none) ∈
      (build_cache_record
        [{ label := " 5Hr ", used_percent := 12, reset_at := none },
         { label := "burst", used_percent := 1, reset_at := none }]
        none ⟨"x", "y", "z"⟩ 0).codex) ∧
    (("5HR", CachedWindow.mk 12 none).1 = "5HR" ∨
      ("5HR", CachedWindow.mk 12 none).1 = "Weekly") :=
  ⟨by decide,
    C10_codex_keys_canonical
      [{ label := " 5Hr ", used_percent := 12, reset_at := none },
       { label := "burst", used_percent := 1, reset_at := none }]
      none ⟨"x", "y", "z"⟩ 0 ("5HR", CachedWindow.mk 12 none) (by decide)⟩

/-!
Persistence (`cache.save_cache` / `cache.load_cache`).  The JSON file is
modelled structurally: ISO-8601 timestamp strings are abstracted by the
instant they denote (`datetime.isoformat` and `datetime.fromisoformat` are
mutually inverse on UTC-aware datetimes), JSON `null` / absent fields are
`none`, and the codex JSON object is an association list (JSON object keys
are unique).  `json.dumps`/`json.loads` round-trip floats and strings
exactly.
-/

/-- One `{used_percent, reset_at}` JSON object as written for a window;
`used_percent` is optional because `load_cache` must tolerate its absence. -/
structure WindowPayload where
  used_percent : Option ℚ
  reset_at : Option Instant
  deriving DecidableEq, Repr

/-- The persisted JSON object. -/
structure CachePayload where
  fetched_at : Option Instant
  codex : List (String × WindowPayload)
  copilot : Option WindowPayload
  auth_fingerprint : String
  format_version : Option Int
  deriving DecidableEq, Repr

/-- `cache._serialize_cached_window`. -/
def _serialize_cached_window : Option CachedWindow → Option WindowPayload
  | none => none
  | some w => some { used_percent := some w.used_percent, reset_at := w.reset_at }

/-- `cache.save_cache`: the JSON payload written for a record (the
file-system write itself is an external effect). -/
def save_cache (record : CacheRecord) : CachePayload :=
  { fetched_at := some record.fetched_at
    codex := record.codex.map (fun kv =>
      (kv.1, ({ used_percent := some kv.2.used_percent, reset_at := kv.2.reset_at } :
        WindowPayload)))
    copilot := _serialize_cached_window record.copilot
    auth_fingerprint := record.auth_fingerprint
    format_version := some record.format_version }

/-- `cache._parse_cached_window`: reject anything without a usable
`used_percent`. -/
def _parse_cached_window : Option WindowPayload → Option CachedWindow
  | none => none
  | some p =>
    match p.used_percent with
    | none => none
    | some percent => some { used_percent := percent, reset_at := p.reset_at }

/-- `cache.load_cache` on a decoded payload.  The source returns `None` when
`fetched_at` is missing, when `auth_fingerprint` is falsy (absent or the
empty string), or when `format_version` is missing. -/
def load_cache (payload : CachePayload) : Option CacheRecord :=
  match payload.fetched_at, payload.format_version with
  | some fetched_at, some format_version =>
    if payload.auth_fingerprint = "" then none
    else some
      { fetched_at := fetched_at
        codex := payload.codex.filterMap (fun kv =>
          (_parse_cached_window (some kv.2)).map (fun w => (kv.1, w)))
        copilot := _parse_cached_window payload.copilot
        auth_fingerprint := payload.auth_fingerprint
        format_version := format_version }
  | _, _ => none

theorem codex_entries_roundtrip (l : List (String × CachedWindow)) :
    (l.map (fun kv =>
      (kv.1, ({ used_percent := some kv.2.used_percent, reset_at := kv.2.reset_at } :
        WindowPayload)))).filterMap (fun kv =>
        (_parse_cached_window (some kv.2)).map (fun w => (kv.1, w))) = l := by
  induction l with
  | nil => rfl
  | cons kv rest ih => exact congrArg (List.cons kv) ih

theorem cached_window_roundtrip (c : Option CachedWindow) :
    _parse_cached_window (_serialize_cached_window c) = c := by
  cases c with
  | none => rfl
  | some w => rfl

/-- C3 is false as stated: a record whose `auth_fingerprint` is the empty
string serializes fine, but `load_cache` treats the empty fingerprint as
falsy and rejects the payload, so no record at all comes back. -/
theorem C3_counterexample :
    load_cache (save_cache
      { fetched_at := 0, codex := [], copilot := none,
        auth_fingerprint := "", format_version := 1 }) = none := by
  decide

/-- C3 (amended): for every record whose `auth_fingerprint` is non-empty,
deserializing the serialized form reproduces the record exactly — fetch
instant, fingerprint, format version, and every window's percent and reset
instant (raw used/limit counts are not part of `CachedWindow` and are the
only data `build_cache_record` drops). -/
theorem C3_roundtrip_amended (r : CacheRecord) (h : r.auth_fingerprint ≠ "") :
    load_cache (save_cache r) = some r := by
  simp only [save_cache, load_cache]
  rw [if_neg h, codex_entries_roundtrip, cached_window_roundtrip]

/-- Witness for C3 at a concrete record. -/
theorem C3_witness :
    load_cache (save_cache
      { fetched_at := 100, codex := [("5HR", ⟨12, some 500⟩), ("Weekly", ⟨50, none⟩)],
        copilot := some ⟨85, some 900⟩, auth_fingerprint := "abc", format_version := 1 })
    = some
      { fetched_at := 100, codex := [("5HR", ⟨12, some 500⟩), ("Weekly", ⟨50, none⟩)],
        copilot := some ⟨85, some 900⟩, auth_fingerprint := "abc", format_version := 1 } :=
  C3_roundtrip_amended _ (by decide)

/-!
Provider A normalizer (`providers/codex.py`).  Scalar JSON values that feed
`float(...)` are modelled by `JVal` (number or string); `float` on a string
is a partial decimal parser.  The windows payload is modelled in the
sequence-of-entry-objects shape (the shape `_iter_entries` reduces the other
two to).  Exceptions escaping the parser are `Except.error ()`.
-/

/-- A scalar JSON value as seen by the numeric coercions. -/
inductive JVal
  | num (q : ℚ)
  | str (s : String)
  deriving DecidableEq, Repr

/-- One decimal digit. -/
def decDigit (c : Char) : Option Nat :=
  if 48 ≤ c.toNat ∧ c.toNat ≤ 57 then some (c.toNat - 48) else none

/-- All-digit string to a number; empty or non-digit input fails. -/
def readDigits (cs : List Char) : Option Nat :=
  if cs.isEmpty then none
  else
    cs.foldl (fun acc c =>
      match acc, decDigit c with
      | some n, some d => some (n * 10 + d)
      | _, _ => none) (some 0)

/-- Python `float(s)` on a decimal string: optional sign, digits, at most one
point; anything else (for example `"abc"`) raises, modelled as `none`. -/
def floatOfString (s : String) : Option ℚ :=
  let signed : ℚ × List Char :=
    match s.data with
    | '-' :: r => (-1, r)
    | '+' :: r => (1, r)
    | r => (1, r)
  let intPart := signed.2.takeWhile (fun c => c != '.')
  match signed.2.dropWhile (fun c => c != '.') with
  | [] =>
    match readDigits intPart with
    | some n => some (signed.1 * n)
    | none => none
  | _ :: fracPart =>
    if intPart.isEmpty ∧ fracPart.isEmpty then none
    else
      match (if intPart.isEmpty then some 0 else readDigits intPart),
          (if fracPart.isEmpty then some 0 else readDigits fracPart) with
      | some i, some f =>
        some (signed.1 * ((i : ℚ) + (f : ℚ) / (10 : ℚ) ^ fracPart.length))
      | _, _ => none

/-- Python `float(value)` on a scalar JSON value; `none` models a raised
`TypeError`/`ValueError`. -/
def pyFloat : JVal → Option ℚ
  | .num q => some q
  | .str s => floatOfString s

namespace Codex

/-- A JSON value in timestamp position (`entry["reset_at"]`), as seen by
`models.parse_timestamp`: the empty string, a number (epoch seconds, or
milliseconds when above `10^12`), a well-formed ISO-8601 string abstracted
by the instant it denotes, or a non-empty string that
`datetime.fromisoformat` rejects. -/
inductive TsVal
  | empty
  | num (q : ℚ)
  | iso (t : OpencodeLimits.Instant)
  | malformed (s : String)
  deriving DecidableEq, Repr

/-- One rate-limit entry object.  `window`/`name` are the naming fields;
`reset_at` carries a timestamp-position value when present. -/
structure Entry where
  window : Option String
  name : Option String
  used_percent : Option JVal
  used : Option JVal
  limit : Option JVal
  reset_at : Option TsVal
  deriving DecidableEq, Repr

/-- `codex._coerce_number`: lenient — missing or non-coercible values become
`None` instead of raising. -/
def _coerce_number : Option JVal → Option ℚ
  | none => none
  | some v => pyFloat v

/-- `models.parse_timestamp`: `None` and `""` give `None`, numbers are epoch
seconds (milliseconds above `10^12`), well-formed ISO strings parse to their
instant, and a malformed string makes `fromisoformat` raise `ValueError` —
there is no handler, so the error escapes. -/
def parse_timestamp : Option TsVal → Except Unit (Option OpencodeLimits.Instant)
  | none => .ok none
  | some .empty => .ok none
  | some (.num q) => .ok (some (if q > 1000000000000 then q / 1000 else q))
  | some (.iso t) => .ok (some t)
  | some (.malformed _) => .error ()

/-- The value `parse_timestamp` returns when it does not raise (used to
state the windows a successful parse produces). -/
def parse_timestamp_total : Option TsVal → Option OpencodeLimits.Instant
  | none => none
  | some .empty => none
  | some (.num q) => some (if q > 1000000000000 then q / 1000 else q)
  | some (.iso t) => some t
  | some (.malformed _) => none

/-- `entry.get("window") or entry.get("name") or "window"` (Python `or`, so
empty strings fall through). -/
def _entry_window_name (e : Entry) : String :=
  let fromName :=
    match e.name with
    | some t => if t ≠ "" then t else "window"
    | none => "window"
  match e.window with
  | some s => if s ≠ "" then s else fromName
  | none => fromName

end Codex

/-- `str.replace("_", " ")`. -/
def underscoreToSpace (s : String) : String :=
  ⟨s.data.map (fun c => if c = '_' then ' ' else c)⟩

/-- `str.replace(c, "")` for a single character. -/
def removeChar (c : Char) (s : String) : String := ⟨s.data.filter (fun d => d != c)⟩

/-- Prefix test on character lists. -/
def leadsWith : List Char → List Char → Bool
  | [], _ => true
  | _ :: _, [] => false
  | a :: as, b :: bs => a == b && leadsWith as bs

/-- Substring test on character lists (Python `needle in hay`). -/
def hasSegment (needle : List Char) : List Char → Bool
  | [] => leadsWith needle []
  | c :: rest => leadsWith needle (c :: rest) || hasSegment needle rest

/-- Python `needle in s` for strings. -/
def containsSub (needle s : String) : Bool := hasSegment needle.data s.data

namespace Codex

/-- The set literal of 5-hour lexical variants in `codex._build_label`. -/
def fiveHourVariants : List String :=
  ["5h", "5hr", "5hrs", "5hour", "5hours", "fivehour", "fivehours"]

/-- `codex._build_label` on the already-extracted raw window name. -/
def _build_label_raw (rawName : String) (pre : String) : String :=
  let window_label := underscoreToSpace rawName
  let normalized := lowerStr window_label
  let compact := removeChar '-' (removeChar ' ' normalized)
  let window_label :=
    if compact ∈ fiveHourVariants then "5HR"
    else if normalized = "primary window" then "5HR"
    else if normalized = "secondary window" then "Weekly"
    else window_label
  let window_label :=
    if ¬containsSub "window" (lowerStr window_label) = true ∧
        lowerStr window_label ∉ (["weekly", "5hr"] : List String) then
      window_label ++ " window"
    else window_label
  if pre ≠ "" then pre ++ " " ++ window_label else window_label

/-- `codex._build_label` on an entry. -/
def _build_label (e : Entry) (pre : String) : String :=
  _build_label_raw (_entry_window_name e) pre

/-- `codex._coerce_used_percent`.  A present `used_percent` goes through
`float(...)` with no exception handler, so a non-numeric value raises. -/
def _coerce_used_percent (e : Entry) : Except Unit ℚ :=
  match e.used_percent with
  | some v =>
    match pyFloat v with
    | some q => .ok q
    | none => .error ()
  | none =>
    match _coerce_number e.used, _coerce_number e.limit with
    | some u, some l => if l = 0 then .ok 0 else .ok (u / l * 100)
    | _, _ => .ok 0

/-- `codex._parse_windows`: one `UsageWindow` per entry, aborting the whole
parse if any entry raises — `_coerce_used_percent` and the unguarded
`parse_timestamp(entry.get("reset_at"))` call are both fallible, in the
source's argument-evaluation order. -/
def _parse_windows (entries : List Entry) (pre : String) :
    Except Unit (List OpencodeLimits.UsageWindow) :=
  match entries with
  | [] => .ok []
  | e :: rest =>
    match _coerce_used_percent e with
    | .error u => .error u
    | .ok up =>
      match parse_timestamp e.reset_at with
      | .error u => .error u
      | .ok ra =>
        match _parse_windows rest pre with
        | .error u => .error u
        | .ok ws =>
          .ok ({ label := _build_label e pre, used_percent := up,
                 reset_at := ra,
                 used := _coerce_number e.used, limit := _coerce_number e.limit } :: ws)

/-- `codex.parse_codex_usage` on the `rate_limit` entry sequence. -/
def parse_codex_usage (entries : List Entry) :
    Except Unit (List OpencodeLimits.UsageWindow) :=
  _parse_windows entries ""

/-- The window produced for one entry whose `used_percent` (when present) is
numeric and whose `reset_at` (when present) is not a malformed string. -/
def window_of_entry (pre : String) (e : Entry) : OpencodeLimits.UsageWindow :=
  { label := _build_label e pre
    used_percent :=
      match e.used_percent with
      | some v => (pyFloat v).getD 0
      | none =>
        match _coerce_number e.used, _coerce_number e.limit with
        | some u, some l => if l = 0 then 0 else u / l * 100
        | _, _ => 0
    reset_at := parse_timestamp_total e.reset_at
    used := _coerce_number e.used
    limit := _coerce_number e.limit }

end Codex

theorem coerce_used_percent_ok (e : Codex.Entry)
    (he : ∀ v, e.used_percent = some v → pyFloat v ≠ none) :
    Codex._coerce_used_percent e = .ok ((Codex.window_of_entry "" e).used_percent) := by
  unfold Codex._coerce_used_percent Codex.window_of_entry
  cases hv : e.used_percent with
  | some v =>
    cases hf : pyFloat v with
    | none => exact absurd hf (he v hv)
    | some q => simp [hf]
  | none =>
    cases hu : Codex._coerce_number e.used with
    | none => simp [hu]
    | some u =>
      cases hl : Codex._coerce_number e.limit with
      | none => simp [hu, hl]
      | some l => by_cases h0 : l = 0 <;> simp [hu, hl, h0]

theorem parse_timestamp_no_raise (o : Option Codex.TsVal)
    (hr : ∀ s, o ≠ some (Codex.TsVal.malformed s)) :
    Codex.parse_timestamp o = .ok (Codex.parse_timestamp_total o) := by
  cases o with
  | none => rfl
  | some v =>
    cases v with
    | empty => rfl
    | num q => rfl
    | iso t => rfl
    | malformed s => exact absurd rfl (hr s)

theorem parse_windows_ok (pre : String) (entries : List Codex.Entry)
    (h : ∀ e ∈ entries, (∀ v, e.used_percent = some v → pyFloat v ≠ none) ∧
      (∀ s, e.reset_at ≠ some (Codex.TsVal.malformed s))) :
    Codex._parse_windows entries pre = .ok (entries.map (Codex.window_of_entry pre)) := by
  induction entries with
  | nil => rfl
  | cons e rest ih =>
    have hok := coerce_used_percent_ok e (h e (List.mem_cons_self e rest)).1
    have hts := parse_timestamp_no_raise e.reset_at (h e (List.mem_cons_self e rest)).2
    have hr := ih (fun e' he' => h e' (List.mem_cons_of_mem e he'))
    rw [Codex._parse_windows, hok, hts, hr]
    rfl

/-- C4 (amended): parsing is lenient for `used`/`limit` — non-numeric or
missing values coerce to `None` and the `used_percent` fallback defaults to
0.0 — and, provided every present `used_percent` value is numeric and every
present `reset_at` string is well-formed, every entry of the payload is
parsed into exactly one `UsageWindow`.  (A present non-numeric
`used_percent` goes through `float(...)` and a present malformed `reset_at`
string through `datetime.fromisoformat`, both with no handler; either
raises and aborts the whole parse — see the counterexample.) -/
theorem C4_lenient_except_used_percent (entries : List Codex.Entry)
    (h : ∀ e ∈ entries, (∀ v, e.used_percent = some v → pyFloat v ≠ none) ∧
      (∀ s, e.reset_at ≠ some (Codex.TsVal.malformed s))) :
    Codex.parse_codex_usage entries = .ok (entries.map (Codex.window_of_entry "")) :=
  parse_windows_ok "" entries h

/-- Witness for C4: an entry with the non-numeric used count `"abc"`, a
numeric limit and a well-formed reset timestamp still parses (used coerces
to `None`, percent defaults). -/
theorem C4_witness :
    Codex.parse_codex_usage
      [⟨none, some "requests", none, some (JVal.str "abc"), some (JVal.num 50),
        some (Codex.TsVal.iso 100)⟩]
    = .ok
      ([⟨none, some "requests", none, some (JVal.str "abc"), some (JVal.num 50),
        some (Codex.TsVal.iso 100)⟩].map (Codex.window_of_entry "")) :=
  C4_lenient_except_used_percent _ (by
    intro e he
    rw [List.mem_singleton.mp he]
    refine ⟨fun v hv => absurd hv (by simp), fun s hs => ?_⟩
    simp at hs)

/-- C4 is false as stated: a first entry with the non-numeric `used_percent`
value `"abc"` makes `float(...)` raise, and — even with `used_percent`
absent — a first entry with the malformed `reset_at` string `"abc"` makes
`datetime.fromisoformat` raise; either way the whole parse aborts and the
well-formed second entry is lost too. -/
theorem C4_counterexample :
    Codex.parse_codex_usage
      [⟨none, none, some (JVal.str "abc"), none, none, none⟩,
       ⟨none, none, some (JVal.num 5), none, none, none⟩] = .error () ∧
    Codex.parse_codex_usage
      [⟨none, none, none, none, none, some (Codex.TsVal.malformed "abc")⟩,
       ⟨none, none, some (JVal.num 5), none, none, none⟩] = .error () :=
  ⟨rfl, rfl⟩

/-- The label rule exactly as C9 states it: the unmatched name keeps its
*normalized* (lower-cased) text, appending "window" unless the text already
denotes "weekly" or "5hr". -/
def spec_label_claim (raw : String) : String :=
  let normalized := lowerStr (underscoreToSpace raw)
  let compact := removeChar '-' (removeChar ' ' normalized)
  if normalized = "primary window" ∨ compact ∈ Codex.fiveHourVariants then "5HR"
  else if normalized = "secondary window" then "Weekly"
  else if normalized ∈ (["weekly", "5hr"] : List String) then normalized
  else normalized ++ " window"

/-- The label rule as amended: the unmatched name keeps its original-case
text (underscores replaced by spaces), and "window" is appended only when
the text neither contains "window" nor equals "weekly"/"5hr"
case-insensitively. -/
def spec_label_amended (raw : String) : String :=
  let text := underscoreToSpace raw
  let normalized := lowerStr text
  let compact := removeChar '-' (removeChar ' ' normalized)
  if normalized = "primary window" ∨ compact ∈ Codex.fiveHourVariants then "5HR"
  else if normalized = "secondary window" then "Weekly"
  else if containsSub "window" normalized = true ∨
      normalized ∈ (["weekly", "5hr"] : List String) then text
  else text ++ " window"

/-- C9 is false as stated: the raw name `"Burst"` keeps its original case in
the source (`"Burst window"`), while the claim's rule keeps the lower-cased
normalized text (`"burst window"`). -/
theorem C9_counterexample :
    Codex._build_label_raw "Burst" "" = "Burst window" ∧
      spec_label_claim "Burst" = "burst window" ∧
      Codex._build_label_raw "Burst" "" ≠ spec_label_claim "Burst" :=
  ⟨by decide, by decide, by decide⟩

/-- C9 (amended): the canonicalizer maps primary-window names and 5-hour
variants to `"5HR"`, secondary-window names to `"Weekly"`, and keeps other
names' original-case text with `" window"` appended unless the text already
contains "window" or equals "weekly"/"5hr" case-insensitively; in
particular `"Primary Window" → "5HR"`, `"secondary_window" → "Weekly"`,
`"burst" → "burst window"`. -/
theorem C9_label_amended :
    (∀ raw : String, Codex._build_label_raw raw "" = spec_label_amended raw) ∧
      Codex._build_label_raw "Primary Window" "" = "5HR" ∧
      Codex._build_label_raw "secondary_window" "" = "Weekly" ∧
      Codex._build_label_raw "burst" "" = "burst window" := by
  refine ⟨?_, by decide, by decide, by decide⟩
  intro raw
  unfold Codex._build_label_raw spec_label_amended
  by_cases h5 : removeChar '-' (removeChar ' ' (lowerStr (underscoreToSpace raw))) ∈
      Codex.fiveHourVariants
  · (simp [h5]; decide)
  · by_cases hp : lowerStr (underscoreToSpace raw) = "primary window"
    · (simp [h5, hp]; decide)
    · by_cases hs : lowerStr (underscoreToSpace raw) = "secondary window"
      · (simp [h5, hp, hs]; decide)
      · by_cases hw : containsSub "window" (lowerStr (underscoreToSpace raw)) = true
        · simp [h5, hp, hs, hw]
        · by_cases hm : lowerStr (underscoreToSpace raw) ∈ (["weekly", "5hr"] : List String)
          · simp [h5, hp, hs, hw, hm]
          · simp [h5, hp, hs, hw, hm]

/-!
Provider B normalizer (`providers/copilot.py`).  Timestamp-valued payload
fields are modelled by `TimeVal`: either the empty string (falsy, parses to
`None`) or a well-formed timestamp abstracted by the instant it denotes.
Calendar dates use the standard civil-from-days conversion, so
`datetime(y, m, d, tzinfo=utc)` is an exact epoch instant.
-/

namespace Copilot

/-- `copilot._coerce_number`: missing or non-coercible values become 0.0. -/
def _coerce_number (v : Option JVal) : ℚ :=
  match v with
  | none => 0
  | some w => (pyFloat w).getD 0

/-- One billing usage item. -/
structure UsageItem where
  grossQuantity : Option JVal
  product : Option String
  deriving DecidableEq, Repr

/-- The billing-usage payload: `usageItems` (absent/null modelled as `[]`)
plus the top-level `grossQuantity` fallback field. -/
structure BillingPayload where
  usageItems : List UsageItem
  grossQuantity : Option JVal
  deriving DecidableEq, Repr

/-- `copilot.parse_copilot_usage`: with a non-empty item list, sum the
coerced quantities of the items whose product is `"Copilot"`. -/
def parse_copilot_usage (payload : BillingPayload) : ℚ :=
  if payload.usageItems ≠ [] then
    ((payload.usageItems.filter (fun item => item.product == some "Copilot")).map
      (fun item => _coerce_number item.grossQuantity)).sum
  else _coerce_number payload.grossQuantity

/-- A Python `datetime.date`. -/
structure PyDate where
  year : Int
  month : Int
  day : Int
  deriving DecidableEq, Repr

/-- Days since 1970-01-01 of a civil date (standard civil-from-days
algorithm, exact for the nonnegative years in use here). -/
def daysFromCivil (y m d : Int) : Int :=
  let yadj := y - (if m ≤ 2 then 1 else 0)
  let era := (if 0 ≤ yadj then yadj else yadj - 399) / 400
  let yoe := yadj - era * 400
  let mp := (m + 9) % 12
  let doy := (153 * mp + 2) / 5 + d - 1
  let doe := yoe * 365 + yoe / 4 - yoe / 100 + doy
  era * 146097 + doe - 719468

/-- `datetime(year, month, day, tzinfo=timezone.utc)` as an instant. -/
def datetime_utc (y m d : Int) : OpencodeLimits.Instant :=
  ((daysFromCivil y m d * 86400 : Int) : ℚ)

/-- `copilot.COPILOT_PRO_MONTHLY_LIMIT`. -/
def COPILOT_PRO_MONTHLY_LIMIT : ℚ := 300

/-- `copilot._next_month_start`: first instant (UTC) of the month after
`current`, December rolling into January of the next year. -/
def _next_month_start (current : PyDate) : OpencodeLimits.Instant :=
  let year := current.year + (if current.month = 12 then 1 else 0)
  let month := if current.month = 12 then 1 else current.month + 1
  datetime_utc year month 1

/-- `copilot.build_copilot_window`. -/
def build_copilot_window (used : ℚ) (today : PyDate) : OpencodeLimits.UsageWindow :=
  let reset_at := _next_month_start today
  let used_percent :=
    if COPILOT_PRO_MONTHLY_LIMIT > 0 then used / COPILOT_PRO_MONTHLY_LIMIT * 100 else 0
  { label := "monthly", used_percent := used_percent, reset_at := some reset_at,
    used := some used, limit := some COPILOT_PRO_MONTHLY_LIMIT }

/-- A timestamp-valued payload field: the empty string or a well-formed
timestamp abstracted by its instant. -/
inductive TimeVal
  | empty
  | iso (t : OpencodeLimits.Instant)
  deriving DecidableEq, Repr

/-- Python truthiness of an optional timestamp value (`None` and `""` are
falsy). -/
def timeValTruthy : Option TimeVal → Bool
  | none => false
  | some .empty => false
  | some (.iso _) => true

/-- `models.parse_timestamp` on such a value: `None` and `""` give `None`. -/
def parse_timestamp_val : Option TimeVal → Option OpencodeLimits.Instant
  | none => none
  | some .empty => none
  | some (.iso t) => some t

/-- Python `a or b`. -/
def pyOr (a b : Option TimeVal) : Option TimeVal :=
  if timeValTruthy a then a else b

/-- The `premium_interactions` quota snapshot. -/
structure PremiumSnapshot where
  entitlement : Option JVal
  remaining : Option JVal
  unlimited : Bool
  deriving DecidableEq, Repr

/-- The internal-quota payload; a missing `quota_snapshots` or
`premium_interactions` is `none` (the source substitutes `{}`). -/
structure InternalPayload where
  premium_interactions : Option PremiumSnapshot
  quota_reset_date : Option TimeVal
  quota_reset_date_utc : Option TimeVal
  deriving DecidableEq, Repr

/-- `copilot.parse_copilot_internal`. -/
def parse_copilot_internal (payload : InternalPayload) : OpencodeLimits.UsageWindow :=
  let premium := payload.premium_interactions.getD ⟨none, none, false⟩
  let entitlement := _coerce_number premium.entitlement
  let remaining := _coerce_number premium.remaining
  let unlimited := premium.unlimited
  let reset_at := parse_timestamp_val (pyOr payload.quota_reset_date payload.quota_reset_date_utc)
  if unlimited = true ∨ entitlement ≤ 0 then
    { label := "Requests", used_percent := 0, reset_at := reset_at }
  else
    let used := max (entitlement - remaining) 0
    let used_percent := if entitlement ≠ 0 then used / entitlement * 100 else 0
    { label := "Requests", used_percent := used_percent, reset_at := reset_at,
      used := some used, limit := some entitlement }

/-- The premium snapshot the parser reads (absent modelled as empty). -/
def premiumOf (p : InternalPayload) : PremiumSnapshot :=
  p.premium_interactions.getD ⟨none, none, false⟩

/-- The coerced entitlement. -/
def entitlementOf (p : InternalPayload) : ℚ := _coerce_number (premiumOf p).entitlement

/-- The coerced remaining amount. -/
def remainingOf (p : InternalPayload) : ℚ := _coerce_number (premiumOf p).remaining

end Copilot

/-- The reset lookup exactly as C8 states it: the first quota-reset key when
it is present, the second only when the first is absent. -/
def spec_reset_lookup (payload : Copilot.InternalPayload) :
    Option Instant :=
  match payload.quota_reset_date with
  | some v => Copilot.parse_timestamp_val (some v)
  | none => Copilot.parse_timestamp_val payload.quota_reset_date_utc

/-- The reset lookup as amended: fall back to the second key when the first
is absent or holds a falsy (empty) value. -/
def spec_reset_lookup_amended (payload : Copilot.InternalPayload) :
    Option Instant :=
  match payload.quota_reset_date with
  | some (Copilot.TimeVal.iso t) => some t
  | _ => Copilot.parse_timestamp_val payload.quota_reset_date_utc

theorem parse_internal_reset (p : Copilot.InternalPayload) :
    (Copilot.parse_copilot_internal p).reset_at
      = Copilot.parse_timestamp_val
          (Copilot.pyOr p.quota_reset_date p.quota_reset_date_utc) := by
  unfold Copilot.parse_copilot_internal
  dsimp only
  split <;> rfl

theorem pyOr_parse_eq_amended (p : Copilot.InternalPayload) :
    Copilot.parse_timestamp_val (Copilot.pyOr p.quota_reset_date p.quota_reset_date_utc)
      = spec_reset_lookup_amended p := by
  unfold Copilot.pyOr spec_reset_lookup_amended
  cases h : p.quota_reset_date with
  | none => simp [Copilot.timeValTruthy]
  | some v => cases v <;> simp [Copilot.timeValTruthy, Copilot.parse_timestamp_val]

/-- C7: for every billing payload with a non-empty usage-item list, the
parser returns the sum of the coerced quantities of exactly the items whose
product is `"Copilot"`, and the window built from sum `u` and reference
date `d` has `used_percent = u/300*100`, `used = u`, `limit = 300` and
reset instant the first instant (UTC) of the month after `d`, with December
rolling to January of the next year. -/
theorem C7_billing_aggregation (p : Copilot.BillingPayload)
    (hp : p.usageItems ≠ []) (u : ℚ) (d : Copilot.PyDate) :
    Copilot.parse_copilot_usage p =
      ((p.usageItems.filter (fun item => item.product == some "Copilot")).map
        (fun item => Copilot._coerce_number item.grossQuantity)).sum ∧
    Copilot.build_copilot_window u d =
      { label := "monthly", used_percent := u / 300 * 100,
        reset_at := some (Copilot.datetime_utc
          (if d.month = 12 then d.year + 1 else d.year)
          (if d.month = 12 then 1 else d.month + 1) 1),
        used := some u, limit := some 300 } := by
  constructor
  · unfold Copilot.parse_copilot_usage
    rw [if_pos hp]
  · unfold Copilot.build_copilot_window Copilot._next_month_start
    by_cases hm : d.month = 12 <;>
      simp [hm, Copilot.COPILOT_PRO_MONTHLY_LIMIT]

/-- Witness for C7 at the spec's worked example: items 120+30 for Copilot
and 15 for Codespaces sum to 150 (50% of 300), and a December reference
date resets at 2027-01-01T00:00:00Z. -/
theorem C7_witness :
    Copilot.parse_copilot_usage
      ⟨[⟨some (JVal.num 120), some "Copilot"⟩, ⟨some (JVal.num 30), some "Copilot"⟩,
        ⟨some (JVal.num 15), some "Codespaces"⟩], none⟩ = 150 ∧
    Copilot.build_copilot_window 150 ⟨2026, 12, 25⟩ =
      { label := "monthly", used_percent := 50,
        reset_at := some (Copilot.datetime_utc 2027 1 1),
        used := some 150, limit := some 300 } := by
  have h := C7_billing_aggregation
    ⟨[⟨some (JVal.num 120), some "Copilot"⟩, ⟨some (JVal.num 30), some "Copilot"⟩,
      ⟨some (JVal.num 15), some "Codespaces"⟩], none⟩ (by decide) 150 ⟨2026, 12, 25⟩
  refine ⟨h.1.trans ?_, h.2.trans ?_⟩
  · simp [Copilot._coerce_number, pyFloat]
    norm_num
  · norm_num

/-- C8 is false as stated: when the first quota-reset key is present but
holds the empty string (falsy), the source falls back to the second key,
while the claim's lookup takes the first key and yields no reset at all. -/
theorem C8_counterexample :
    (Copilot.parse_copilot_internal
      ⟨some ⟨some (JVal.num 50), some (JVal.num 20), false⟩,
        some Copilot.TimeVal.empty, some (Copilot.TimeVal.iso 100)⟩).reset_at
      = some 100 ∧
    spec_reset_lookup
      ⟨some ⟨some (JVal.num 50), some (JVal.num 20), false⟩,
        some Copilot.TimeVal.empty, some (Copilot.TimeVal.iso 100)⟩ = none := by
  decide

/-- C8 (amended): the reset instant comes from the first quota-reset key,
falling back to the second when the first is absent *or falsy (empty)*;
with the unlimited flag or entitlement ≤ 0 the window reports 0% with no
used/limit counts, and otherwise `used = max(entitlement - remaining, 0)`,
`limit = entitlement` and `used_percent = used/entitlement*100`. -/
theorem C8_internal_quota (p : Copilot.InternalPayload) :
    (Copilot.parse_copilot_internal p).reset_at = spec_reset_lookup_amended p ∧
    ((Copilot.premiumOf p).unlimited = true ∨ Copilot.entitlementOf p ≤ 0 →
      Copilot.parse_copilot_internal p =
        { label := "Requests", used_percent := 0,
          reset_at := spec_reset_lookup_amended p }) ∧
    ((Copilot.premiumOf p).unlimited = false → 0 < Copilot.entitlementOf p →
      Copilot.parse_copilot_internal p =
        { label := "Requests",
          used_percent := max (Copilot.entitlementOf p - Copilot.remainingOf p) 0 /
            Copilot.entitlementOf p * 100,
          reset_at := spec_reset_lookup_amended p,
          used := some (max (Copilot.entitlementOf p - Copilot.remainingOf p) 0),
          limit := some (Copilot.entitlementOf p) }) := by
  refine ⟨(parse_internal_reset p).trans (pyOr_parse_eq_amended p), ?_, ?_⟩
  · intro hc
    unfold Copilot.premiumOf Copilot.entitlementOf Copilot.premiumOf at hc
    unfold Copilot.parse_copilot_internal
    dsimp only
    rw [if_pos hc, ← pyOr_parse_eq_amended p]
  · intro hu he
    unfold Copilot.premiumOf at hu
    unfold Copilot.entitlementOf Copilot.premiumOf at he
    have hc : ¬((p.premium_interactions.getD ⟨none, none, false⟩).unlimited = true ∨
        Copilot._coerce_number
          (p.premium_interactions.getD ⟨none, none, false⟩).entitlement ≤ 0) := by
      rw [hu]
      simp [not_le.mpr he]
    unfold Copilot.parse_copilot_internal
    dsimp only
    rw [if_neg hc, if_pos (ne_of_gt he), ← pyOr_parse_eq_amended p]
    unfold Copilot.entitlementOf Copilot.remainingOf Copilot.premiumOf
    rfl

/-- Witness for C8 at the spec's worked example (entitlement 50, remaining
20, not unlimited, reset from the first key). -/
theorem C8_witness :
    Copilot.parse_copilot_internal
      ⟨some ⟨some (JVal.num 50), some (JVal.num 20), false⟩,
        some (Copilot.TimeVal.iso 777), none⟩ =
      { label := "Requests", used_percent := 60, reset_at := some 777,
        used := some 30, limit := some 50 } := by
  have h := C8_internal_quota
    ⟨some ⟨some (JVal.num 50), some (JVal.num 20), false⟩,
      some (Copilot.TimeVal.iso 777), none⟩
  refine (h.2.2 rfl ?_).trans ?_
  · norm_num [Copilot.entitlementOf, Copilot.premiumOf, Copilot._coerce_number, pyFloat]
  · simp [Copilot.entitlementOf, Copilot.remainingOf, Copilot.premiumOf,
      Copilot._coerce_number, pyFloat, spec_reset_lookup_amended, Copilot.parse_timestamp_val]
    norm_num [max_def]

/-!
Orchestration (`cli._run_tmux`), post-fetch success path.  `save_cache` and
`console.file.write` are effects; the model records what is written and
whether an exception escapes.
-/

/-- Outcome of the tmux entry point: a status string written with an exit
code, or an uncaught exception (nothing written, the process fails). -/
inductive TmuxOutcome
  | wrote (status : String) (exitCode : Int)
  | exception
  deriving DecidableEq, Repr

/-- `cli._run_tmux` after a live fetch produced data and a renderable
status (source lines 157–164): when caching is enabled and no provider
failed, `save_cache` runs BEFORE the status is written and has no exception
handler, so a failing save (`saveOk = false`) escapes and nothing is
written.  `fallback` abstracts the stale-cache fallback the source
continues with when the status is empty. -/
def run_tmux_with_status (status : String) (cacheDisabled : Bool)
    (anyFailure : Bool) (saveOk : Bool) (fallback : TmuxOutcome) : TmuxOutcome :=
  if status ≠ "" then
    if cacheDisabled = false ∧ anyFailure = false then
      if saveOk then TmuxOutcome.wrote status 0 else TmuxOutcome.exception
    else TmuxOutcome.wrote status 0
  else fallback

/-- C6: the code contradicts the claim.  With caching enabled, no provider
failures and a renderable status, a failing cache write makes the whole run
abort with an exception before the status is written (first conjunct),
whereas with a succeeding write the status is written and the exit code is
0 (second conjunct, the behavior the claim expects in both cases). -/
theorem C6_save_failure_aborts :
    run_tmux_with_status "5HR 10%" false false false (TmuxOutcome.wrote "" 1)
        = TmuxOutcome.exception ∧
      run_tmux_with_status "5HR 10%" false false true (TmuxOutcome.wrote "" 1)
        = TmuxOutcome.wrote "5HR 10%" 0 := by
  decide

end OpencodeLimits
